import Mathlib

/-!
Verification development for the `ffmpegthumbnailer-rs` thumbnail pipeline
(`src/lib.rs`, `src/thumbnailer.rs`).

Embedding conventions:
* Rust `f32` configuration values (seek percentage, quality) are modelled as
  exact rationals `ℚ`; all values the claims touch (`0.0`, `1.0`, `0.1`,
  `80.0`, `100.0`) are exactly representable and `f32::round` (half away from
  zero) agrees with Mathlib's `round` (half up) on the non-negative values
  that occur here.
* Fallible Rust functions returning `Result` are embedded as `Except`.
* The decoder backend (`MovieDecoder`), the film-strip filter and the image
  encoder libraries are not part of the two source files; they are modelled
  from the spec (each such definition carries a `Modelled from the spec:` doc
  comment).  The behaviour of one concrete media input is described by a
  `MediaSource` record; the pipeline is a pure function of the configuration
  and that record, and additionally returns the list of decoder/encoder calls
  it performed (`Ev`), which the temporal claims are stated over.
-/

namespace FfmpegThumbnailer

/-- `ThumbnailSize` from the source: either a single bounding edge length or
an explicit width/height pair. -/
inductive ThumbnailSize
  | size (n : Nat)
  | dimensions (width : Nat) (height : Nat)
deriving DecidableEq, Repr

/-- `VideoFrame`: decoded pixel buffer with its scaled dimensions and the
original source dimensions; `data` is the RGB byte buffer. -/
structure VideoFrame where
  width : Nat
  height : Nat
  source_width : Nat
  source_height : Nat
  data : List Nat
deriving DecidableEq, Repr

/-- `ThumbnailerError` from the source (`src/error.rs` is not in the sources;
variants are taken from the spec's §7 error-kind list and the uses in
`src/thumbnailer.rs`).  `UnsupportedExtension` carries the offending
extension, `InvalidSeekPercentage`/`InvalidQuality` the rejected value. -/
inductive ThumbnailerError
  | UnsupportedExtension (ext : String)
  | InvalidSeekPercentage (value : ℚ)
  | InvalidQuality (value : ℚ)
  | OpenFailed
  | DecodeFailed
  | SeekFailed
  | EncodeFailed
  | IoFailed
deriving DecidableEq, Repr

/-- `OutputFormat` from `src/lib.rs`. -/
inductive OutputFormat
  | Webp
  | Png
deriving DecidableEq, Repr

/-- PNG color types (the source selects `png::ColorType::Rgb`). -/
inductive PngColorType
  | Grayscale
  | Rgb
  | Indexed
  | GrayscaleAlpha
  | Rgba
deriving DecidableEq, Repr

/-- PNG bit depths (the source selects `png::BitDepth::Eight`). -/
inductive PngBitDepth
  | One
  | Two
  | Four
  | Eight
  | Sixteen
deriving DecidableEq, Repr

/-- Modelled from the spec: the external WebP/PNG encoder collaborators are
deterministic functions of exactly the information the source hands them; the
encoded byte stream is represented by that information.  The WebP encoder
receives the RGB buffer, the dimensions and the configured quality; the PNG
encoder receives the color type, bit depth, dimensions and RGB buffer (and no
quality). -/
inductive EncodedBytes
  | webp (quality : ℚ) (width : Nat) (height : Nat) (data : List Nat)
  | png (color : PngColorType) (depth : PngBitDepth) (width : Nat) (height : Nat)
      (data : List Nat)
deriving DecidableEq, Repr

/-- `OutputContainer` from `src/lib.rs`. -/
structure OutputContainer where
  width : Nat
  height : Nat
  source_width : Nat
  source_height : Nat
  bytes : EncodedBytes
deriving DecidableEq, Repr

/-- `OutputContainer::from` (`src/lib.rs`): copies the frame's dimension
metadata next to the encoded bytes. -/
def OutputContainer.from (video_frame : VideoFrame) (bytes : EncodedBytes) :
    OutputContainer :=
  { width := video_frame.width
    height := video_frame.height
    source_width := video_frame.source_width
    source_height := video_frame.source_height
    bytes := bytes }

/-- A source image before output scaling (an embedded cover image or a decoded
stream frame), as exposed by the decoder backend. -/
structure Image where
  width : Nat
  height : Nat
  data : List Nat
deriving DecidableEq, Repr

/-- Modelled from the spec: the behaviour of one media input as seen through
the decoder-backend contract (§4.1): whether `open` succeeds, whether the
priming decode succeeds, whether the container carries embedded cover art and
that image, the duration in whole seconds, the decoded stream frame at each
whole-second position, whether the container is seekable, and whether the
scale operation succeeds. -/
structure MediaSource where
  openOk : Bool
  primeOk : Bool
  hasEmbedded : Bool
  embeddedImage : Image
  durationSecs : Nat
  frameAt : Nat → Image
  seekable : Bool
  scaleOk : Bool

/-- Modelled from the spec (§4.1 scaling policy): with `maintain_aspect_ratio`
and a single edge length, the longer source edge is bound to that length and
the other edge is computed proportionally, rounded to nearest
(`(2 * s * e + d) / (2 * d)` is `s * e / d` rounded half up over `Nat`);
otherwise the exact requested dimensions are used. -/
def scaleDims (size : Option ThumbnailSize) (maintain_aspect_ratio : Bool)
    (sw sh : Nat) : Nat × Nat :=
  match size with
  | none => (sw, sh)
  | some (ThumbnailSize.dimensions w h) => (w, h)
  | some (ThumbnailSize.size s) =>
    if maintain_aspect_ratio then
      if sw = 0 ∨ sh = 0 then (s, s)
      else if sh ≤ sw then (s, (2 * s * sh + sw) / (2 * sw))
      else ((2 * s * sw + sh) / (2 * sh), s)
    else (s, s)

/-- Modelled from the spec: stand-in for the external resampler; a
deterministic function of the source pixel data and the target dimensions,
producing a buffer of length `w * h * 3`. -/
def resample (data : List Nat) (w h : Nat) : List Nat :=
  (data ++ List.replicate (w * h * 3) 0).take (w * h * 3)

/-- Modelled from the spec (§4.1): the scale operation populates a
`VideoFrame` with the scaled dimensions, the source dimensions and a scaled
RGB buffer derived from the selected source image. -/
def scaleImage (size : Option ThumbnailSize) (maintain_aspect_ratio : Bool)
    (img : Image) : VideoFrame :=
  { width := (scaleDims size maintain_aspect_ratio img.width img.height).1
    height := (scaleDims size maintain_aspect_ratio img.width img.height).2
    source_width := img.width
    source_height := img.height
    data := resample img.data (scaleDims size maintain_aspect_ratio img.width img.height).1
      (scaleDims size maintain_aspect_ratio img.width img.height).2 }

/-- Modelled from the spec (§4.3, `src/film_strip.rs` is not in the sources):
`film_strip_filter` overlays a decorative sprocket border along the frame
edges in place, respecting the existing width and height; it always succeeds
on a valid frame.  The border overlay is represented by overwriting the pixels
of the left and right edge columns. -/
def film_strip_filter (f : VideoFrame) : VideoFrame :=
  { f with
    data := f.data.mapIdx fun i v =>
      if f.width ≠ 0 ∧ ((i / 3) % f.width < 8 ∨ f.width - 8 ≤ (i / 3) % f.width)
      then 0 else v }

/-- Modelled from the spec (§4.1): decoder session state — the media input it
was opened on, the embedded-metadata preference passed to `open`, and the
decode-cursor position in whole seconds. -/
structure MovieDecoder where
  src : MediaSource
  prefer_embedded_metadata : Bool
  cursor : Nat

/-- Modelled from the spec (§4.1 `open`): `MovieDecoder::new` opens the
container with the embedded-metadata preference; fails with `OpenFailed` on
unreadable input. -/
def MovieDecoder.new (src : MediaSource) (prefer_embedded_metadata : Bool) :
    Except ThumbnailerError MovieDecoder :=
  if src.openOk then Except.ok ⟨src, prefer_embedded_metadata, 0⟩
  else Except.error ThumbnailerError.OpenFailed

/-- Modelled from the spec (§4.1 `decode_next_frame`): the priming decode,
required before duration/metadata queries are reliable. -/
def MovieDecoder.decode_video_frame (d : MovieDecoder) :
    Except ThumbnailerError Unit :=
  if d.src.primeOk then Except.ok () else Except.error ThumbnailerError.DecodeFailed

/-- Modelled from the spec (§4.1 `has_embedded_metadata` combined with §4.2's
decision rule): embedded metadata is available to the pipeline when the
container carries a usable cover image AND the decoder was opened with the
embedded-metadata preference. -/
def MovieDecoder.embedded_metadata_is_available (d : MovieDecoder) : Bool :=
  d.prefer_embedded_metadata && d.src.hasEmbedded

/-- Modelled from the spec (§4.1 `duration`), already truncated to whole
seconds as `Duration::as_secs` does. -/
def MovieDecoder.get_video_duration_secs (d : MovieDecoder) : Nat :=
  d.src.durationSecs

/-- Modelled from the spec (§4.1 `seek`): repositions the decode cursor;
fails with `SeekFailed` if the target exceeds the stream bounds or the
container is unseekable. -/
def MovieDecoder.seek (d : MovieDecoder) (t : Int) :
    Except ThumbnailerError MovieDecoder :=
  if d.src.seekable = true ∧ 0 ≤ t ∧ t ≤ (d.src.durationSecs : Int) then
    Except.ok { d with cursor := t.toNat }
  else Except.error ThumbnailerError.SeekFailed

/-- Modelled from the spec (§4.1 `scaled_frame`): decodes (or reuses the
embedded metadata image) and produces a scaled RGB frame, setting both output
and source dimensions. -/
def MovieDecoder.get_scaled_video_frame (d : MovieDecoder)
    (size : Option ThumbnailSize) (maintain_aspect_ratio : Bool) :
    Except ThumbnailerError VideoFrame :=
  if d.src.scaleOk then
    Except.ok (scaleImage size maintain_aspect_ratio
      (if d.embedded_metadata_is_available then d.src.embeddedImage
       else d.src.frameAt d.cursor))
  else Except.error ThumbnailerError.DecodeFailed

/-- `ThumbnailerBuilder` from `src/thumbnailer.rs`. -/
structure ThumbnailerBuilder where
  maintain_aspect_ratio : Bool
  size : ThumbnailSize
  seek_percentage : ℚ
  quality : ℚ
  prefer_embedded_metadata : Bool
  with_film_strip : Bool
deriving DecidableEq, Repr

/-- `Default for ThumbnailerBuilder` (`src/thumbnailer.rs:147`). -/
def ThumbnailerBuilder.default : ThumbnailerBuilder :=
  { maintain_aspect_ratio := true
    size := ThumbnailSize.size 128
    seek_percentage := 0.1
    quality := 80.0
    prefer_embedded_metadata := true
    with_film_strip := true }

/-- `ThumbnailerBuilder::new` (`src/thumbnailer.rs:168`). -/
def ThumbnailerBuilder.new : ThumbnailerBuilder :=
  ThumbnailerBuilder.default

/-- Setter `maintain_aspect_ratio` (`src/thumbnailer.rs:173`); `set_` prefix
added because the field projection already uses the source name. -/
def ThumbnailerBuilder.set_maintain_aspect_ratio (b : ThumbnailerBuilder)
    (maintain_aspect_ratio : Bool) : ThumbnailerBuilder :=
  { b with maintain_aspect_ratio := maintain_aspect_ratio }

/-- Setter `size` (`src/thumbnailer.rs:179`). -/
def ThumbnailerBuilder.set_size (b : ThumbnailerBuilder) (size : Nat) :
    ThumbnailerBuilder :=
  { b with size := ThumbnailSize.size size }

/-- Setter `width_and_height` (`src/thumbnailer.rs:185`). -/
def ThumbnailerBuilder.width_and_height (b : ThumbnailerBuilder)
    (width height : Nat) : ThumbnailerBuilder :=
  { b with size := ThumbnailSize.dimensions width height }

/-- Fallible setter `seek_percentage` (`src/thumbnailer.rs:191`): rejects
values outside `[0.0, 1.0]`. -/
def ThumbnailerBuilder.set_seek_percentage (b : ThumbnailerBuilder)
    (seek_percentage : ℚ) : Except ThumbnailerError ThumbnailerBuilder :=
  if ¬(0 ≤ seek_percentage ∧ seek_percentage ≤ 1) then
    Except.error (ThumbnailerError.InvalidSeekPercentage seek_percentage)
  else Except.ok { b with seek_percentage := seek_percentage }

/-- Fallible setter `quality` (`src/thumbnailer.rs:200`): rejects values
outside `[0.0, 100.0]`. -/
def ThumbnailerBuilder.set_quality (b : ThumbnailerBuilder) (quality : ℚ) :
    Except ThumbnailerError ThumbnailerBuilder :=
  if ¬(0 ≤ quality ∧ quality ≤ 100) then
    Except.error (ThumbnailerError.InvalidQuality quality)
  else Except.ok { b with quality := quality }

/-- Setter `prefer_embedded_metadata` (`src/thumbnailer.rs:210`). -/
def ThumbnailerBuilder.set_prefer_embedded_metadata (b : ThumbnailerBuilder)
    (prefer_embedded_metadata : Bool) : ThumbnailerBuilder :=
  { b with prefer_embedded_metadata := prefer_embedded_metadata }

/-- Setter `with_film_strip` (`src/thumbnailer.rs:216`). -/
def ThumbnailerBuilder.set_with_film_strip (b : ThumbnailerBuilder)
    (with_film_strip : Bool) : ThumbnailerBuilder :=
  { b with with_film_strip := with_film_strip }

/-- `Thumbnailer` from `src/thumbnailer.rs`. -/
structure Thumbnailer where
  builder : ThumbnailerBuilder
deriving DecidableEq, Repr

/-- `ThumbnailerBuilder::build` (`src/thumbnailer.rs:222`): infallible. -/
def ThumbnailerBuilder.build (b : ThumbnailerBuilder) : Thumbnailer :=
  ⟨b⟩

/-- Decoder/encoder/filesystem calls performed by one pipeline invocation, in
order; the temporal claims are stated over this trace. -/
inductive Ev
  | openCall
  | decodeCall
  | seekCall (target : Int)
  | scaleCall
  | filterCall
  | encodeCall
  | writeCall
deriving DecidableEq, Repr

/-- Whether an event is a seek call. -/
def Ev.isSeek : Ev → Bool
  | Ev.seekCall _ => true
  | _ => false

/-- The seek-target computation of `process_to_video_frame`
(`src/thumbnailer.rs:76`): `(duration.as_secs() as f32 * seek_percentage)
.round() as i64`. -/
def seekTarget (durSecs : Nat) (seek_percentage : ℚ) : Int :=
  round ((durSecs : ℚ) * seek_percentage)

/-- The scale-then-optional-filter tail of `process_to_video_frame`
(`src/thumbnailer.rs:81-89`), shared by both branches of the seek decision. -/
def scaleAndFilter (t : Thumbnailer) (dec : MovieDecoder) (tr : List Ev) :
    Except ThumbnailerError VideoFrame × List Ev :=
  match dec.get_scaled_video_frame (some t.builder.size)
      t.builder.maintain_aspect_ratio with
  | Except.error e => (Except.error e, tr ++ [Ev.scaleCall])
  | Except.ok sf =>
    if t.builder.with_film_strip then
      (Except.ok (film_strip_filter sf), tr ++ [Ev.scaleCall, Ev.filterCall])
    else (Except.ok sf, tr ++ [Ev.scaleCall])

/-- `Thumbnailer::process_to_video_frame` (`src/thumbnailer.rs:58-92`): open
the decoder, prime it with one decode, seek unless embedded metadata is
available, request the scaled frame, optionally apply the film-strip filter.
Also returns the trace of backend calls made. -/
def Thumbnailer.process_to_video_frame (t : Thumbnailer) (src : MediaSource) :
    Except ThumbnailerError VideoFrame × List Ev :=
  match MovieDecoder.new src t.builder.prefer_embedded_metadata with
  | Except.error e => (Except.error e, [Ev.openCall])
  | Except.ok dec =>
    match dec.decode_video_frame with
    | Except.error e => (Except.error e, [Ev.openCall, Ev.decodeCall])
    | Except.ok _ =>
      if !dec.embedded_metadata_is_available then
        match dec.seek (seekTarget dec.get_video_duration_secs
            t.builder.seek_percentage) with
        | Except.error e =>
          (Except.error e, [Ev.openCall, Ev.decodeCall,
            Ev.seekCall (seekTarget dec.get_video_duration_secs
              t.builder.seek_percentage)])
        | Except.ok dec2 =>
          scaleAndFilter t dec2 [Ev.openCall, Ev.decodeCall,
            Ev.seekCall (seekTarget dec.get_video_duration_secs
              t.builder.seek_percentage)]
      else
        scaleAndFilter t dec [Ev.openCall, Ev.decodeCall]

/-- `Thumbnailer::process_to_webp_bytes` (`src/thumbnailer.rs:95-112`): encode
the RGB buffer at the configured quality.  The source performs no fallible
call on the WebP encode path (no `?` on the encode itself), so the result is
always `Ok`. -/
def Thumbnailer.process_to_webp_bytes (t : Thumbnailer)
    (video_frame : VideoFrame) : Except ThumbnailerError OutputContainer :=
  Except.ok (OutputContainer.from video_frame
    (EncodedBytes.webp t.builder.quality video_frame.width video_frame.height
      video_frame.data))

/-- `Thumbnailer::process_to_png_bytes` (`src/thumbnailer.rs:114-132`): encode
with `ColorType::Rgb` and `BitDepth::Eight`; the configured quality is not
consulted.  The source propagates the `Result`s of `write_header()` and
`write_image_data(..)` with `?`; the external PNG encoder's failure condition
is modelled from the spec (§7 `EncodeFailed`): the header write rejects a
zero dimension and the data write rejects a buffer whose length does not
match the `width * height * 3` RGB layout. -/
def Thumbnailer.process_to_png_bytes (t : Thumbnailer)
    (video_frame : VideoFrame) : Except ThumbnailerError OutputContainer :=
  if video_frame.width = 0 ∨ video_frame.height = 0 ∨
      video_frame.data.length ≠ video_frame.width * video_frame.height * 3 then
    Except.error ThumbnailerError.EncodeFailed
  else
    Except.ok (OutputContainer.from video_frame
      (EncodedBytes.png PngColorType.Rgb PngBitDepth.Eight video_frame.width
        video_frame.height video_frame.data))

/-- `Thumbnailer::process_to_bytes` (`src/thumbnailer.rs:18-30`): run the
pipeline, then dispatch to the requested encoder, propagating an encoder
error. -/
def Thumbnailer.process_to_bytes (t : Thumbnailer) (src : MediaSource)
    (output_format : OutputFormat) :
    Except ThumbnailerError OutputContainer × List Ev :=
  match t.process_to_video_frame src with
  | (Except.error e, tr) => (Except.error e, tr)
  | (Except.ok frame, tr) =>
    match output_format with
    | OutputFormat.Webp =>
      match t.process_to_webp_bytes frame with
      | Except.error e => (Except.error e, tr ++ [Ev.encodeCall])
      | Except.ok out => (Except.ok out, tr ++ [Ev.encodeCall])
    | OutputFormat.Png =>
      match t.process_to_png_bytes frame with
      | Except.error e => (Except.error e, tr ++ [Ev.encodeCall])
      | Except.ok out => (Except.ok out, tr ++ [Ev.encodeCall])

/-- Splits a character list at `/` separators into the raw components of a
Unix path. -/
def splitComponents (cs : List Char) : List (List Char) :=
  cs.foldr
    (fun c acc =>
      if c = '/' then [] :: acc
      else
        match acc with
        | [] => [[c]]
        | h :: t => (c :: h) :: t)
    [[]]

/-- `Path::file_name` semantics: the last component of the path after
ignoring empty components (duplicate or trailing separators) and `.`
components; `none` when no component remains or the path ends in `..`. -/
def fileName (p : String) : Option (List Char) :=
  let comps := (splitComponents p.data).filter
    fun c => !(c.isEmpty || c == ['.'])
  match comps.getLast? with
  | none => none
  | some last => if last = ['.', '.'] then none else some last

/-- `Path::extension` semantics on the output path: the portion of the file
name after its last `.`, provided the file name exists, contains a `.`, and
does not merely start with one. -/
def pathExtension (p : String) : Option String :=
  match fileName p with
  | none => none
  | some name =>
    let extRev := name.reverse.takeWhile fun c => c ≠ '.'
    if extRev.length = name.length then none
    else if name.length = extRev.length + 1 then none
    else some ⟨extRev.reverse⟩

/-- ASCII-only case folding of `u8::eq_ignore_ascii_case` (Lean's
`Char.toLower` lowercases exactly `A`-`Z`). -/
def eqIgnoreAsciiCase (a b : String) : Bool :=
  a.data.map Char.toLower == b.data.map Char.toLower

/-- The extension match of `Thumbnailer::process` (`src/thumbnailer.rs:39-50`):
`webp`/`png` case-insensitively, any other extension is `UnsupportedExtension`
with that extension, a missing extension is `UnsupportedExtension "<empty>"`. -/
def inferredFormat : Option String → Except ThumbnailerError OutputFormat
  | some ext =>
    if eqIgnoreAsciiCase ext "webp" then Except.ok OutputFormat.Webp
    else if eqIgnoreAsciiCase ext "png" then Except.ok OutputFormat.Png
    else Except.error (ThumbnailerError.UnsupportedExtension ext)
  | none => Except.error (ThumbnailerError.UnsupportedExtension "<empty>")

/-- `Thumbnailer::process` (`src/thumbnailer.rs:34-55`): infer the format from
the output path's extension, run `process_to_bytes`, write the bytes.  The
third component records the file content handed to the filesystem write, or
`none` when no write was attempted; `writeOk` models the external filesystem
write outcome. -/
def Thumbnailer.process (t : Thumbnailer) (src : MediaSource) (writeOk : Bool)
    (output_thumbnail_path : String) :
    Except ThumbnailerError Unit × List Ev × Option EncodedBytes :=
  match inferredFormat (pathExtension output_thumbnail_path) with
  | Except.error e => (Except.error e, [], none)
  | Except.ok format =>
    match t.process_to_bytes src format with
    | (Except.error e, tr) => (Except.error e, tr, none)
    | (Except.ok out, tr) =>
      if writeOk then (Except.ok (), tr ++ [Ev.writeCall], some out.bytes)
      else (Except.error ThumbnailerError.IoFailed, tr ++ [Ev.writeCall],
        some out.bytes)

/-- A 1×1 embedded cover image used as concrete test input. -/
def sampleImage : Image := ⟨1, 1, [5, 6, 7]⟩

/-- A 1×1 decoded stream frame used as concrete test input. -/
def streamImage : Image := ⟨1, 1, [9, 9, 9]⟩

/-- A concrete well-behaved media input that carries embedded cover art. -/
def embeddedSource : MediaSource :=
  { openOk := true
    primeOk := true
    hasEmbedded := true
    embeddedImage := sampleImage
    durationSecs := 10
    frameAt := fun _ => streamImage
    seekable := true
    scaleOk := true }

/-- The same input without embedded cover art. -/
def plainSource : MediaSource :=
  { embeddedSource with hasEmbedded := false }

/-- An input whose container cannot be opened. -/
def failingSource : MediaSource :=
  { embeddedSource with openOk := false }

/-- A thumbnailer with default configuration except a 1-pixel target size. -/
def sampleThumbnailer : Thumbnailer :=
  (ThumbnailerBuilder.new.set_size 1).build

/-- Same, with the film strip disabled. -/
def noStripThumbnailer : Thumbnailer :=
  ((ThumbnailerBuilder.new.set_size 1).set_with_film_strip false).build

/-- A thumbnailer configured with an explicit zero-dimension target, whose
scaled frames the PNG encoder rejects. -/
def zeroDimThumbnailer : Thumbnailer :=
  (ThumbnailerBuilder.new.width_and_height 0 0).build

/-- The output container of the sample PNG run on `embeddedSource`. -/
def samplePngOut : OutputContainer :=
  ⟨1, 1, 1, 1, EncodedBytes.png PngColorType.Rgb PngBitDepth.Eight 1 1 [0, 0, 0]⟩

/-- The call trace of the sample PNG run on `embeddedSource`. -/
def samplePngTrace : List Ev :=
  [Ev.openCall, Ev.decodeCall, Ev.scaleCall, Ev.filterCall, Ev.encodeCall]

/-- C5: `ThumbnailerBuilder.new` yields exactly the default configuration —
size = single edge length 128, maintain_aspect_ratio = true,
seek_percentage = 0.1, quality = 80.0, prefer_embedded_metadata = true,
with_film_strip = true — and `build` never fails (it is a total function),
producing a `Thumbnailer` carrying that configuration unchanged. -/
theorem new_defaults_and_build_infallible :
    ThumbnailerBuilder.new =
      ⟨true, ThumbnailSize.size 128, 0.1, 80.0, true, true⟩ ∧
    ∀ b : ThumbnailerBuilder, (ThumbnailerBuilder.build b).builder = b :=
  ⟨rfl, fun _ => rfl⟩

/-- C10: every builder setter, on success, changes only its named
configuration field: `set_maintain_aspect_ratio`, `set_size`,
`width_and_height` (both of which overwrite the single `size` field),
`set_prefer_embedded_metadata`, `set_with_film_strip`, and (on success)
`set_seek_percentage` and `set_quality` each produce the input builder with
exactly one field replaced. -/
theorem setters_modify_exactly_one_field (b : ThumbnailerBuilder) (v : Bool)
    (n w h : Nat) (s q : ℚ) :
    b.set_maintain_aspect_ratio v = { b with maintain_aspect_ratio := v } ∧
    b.set_size n = { b with size := ThumbnailSize.size n } ∧
    b.width_and_height w h = { b with size := ThumbnailSize.dimensions w h } ∧
    b.set_prefer_embedded_metadata v =
      { b with prefer_embedded_metadata := v } ∧
    b.set_with_film_strip v = { b with with_film_strip := v } ∧
    (∀ b', b.set_seek_percentage s = Except.ok b' →
      b' = { b with seek_percentage := s }) ∧
    (∀ b', b.set_quality q = Except.ok b' → b' = { b with quality := q }) := by
  refine ⟨rfl, rfl, rfl, rfl, rfl, ?_, ?_⟩ <;> intro b' hb'
  · unfold ThumbnailerBuilder.set_seek_percentage at hb'
    split at hb' <;> simp_all
  · unfold ThumbnailerBuilder.set_quality at hb'
    split at hb' <;> simp_all

/-- Witness for C10 at concrete inputs. -/
theorem setters_modify_exactly_one_field_witness :
    ThumbnailerBuilder.new.set_size 64 =
      { ThumbnailerBuilder.new with size := ThumbnailSize.size 64 } ∧
    ({ ThumbnailerBuilder.new with seek_percentage := 0 } : ThumbnailerBuilder) =
      { ThumbnailerBuilder.new with seek_percentage := 0 } :=
  ⟨(setters_modify_exactly_one_field ThumbnailerBuilder.new true 64 2 3 0 50).2.1,
   (setters_modify_exactly_one_field ThumbnailerBuilder.new true 64 2 3 0
      50).2.2.2.2.2.1 _ (by norm_num [ThumbnailerBuilder.set_seek_percentage])⟩

/-- C4: `set_seek_percentage` succeeds iff the value lies in `[0, 1]` and
`set_quality` succeeds iff the value lies in `[0, 100]`; an out-of-range value
fails immediately with `InvalidSeekPercentage(value)` respectively
`InvalidQuality(value)` (and, the builder being a pure value that the failing
setter never rebuilds, the caller-visible configuration is unchanged on
failure). -/
theorem setter_range_validation (b : ThumbnailerBuilder) (s q : ℚ) :
    ((∃ b', b.set_seek_percentage s = Except.ok b') ↔ 0 ≤ s ∧ s ≤ 1) ∧
    (¬(0 ≤ s ∧ s ≤ 1) →
      b.set_seek_percentage s =
        Except.error (ThumbnailerError.InvalidSeekPercentage s)) ∧
    ((∃ b', b.set_quality q = Except.ok b') ↔ 0 ≤ q ∧ q ≤ 100) ∧
    (¬(0 ≤ q ∧ q ≤ 100) →
      b.set_quality q = Except.error (ThumbnailerError.InvalidQuality q)) := by
  unfold ThumbnailerBuilder.set_seek_percentage ThumbnailerBuilder.set_quality
  by_cases hs : 0 ≤ s ∧ s ≤ 1 <;> by_cases hq : 0 ≤ q ∧ q ≤ 100 <;>
    simp [hs, hq]

/-- Witness for C4 at concrete inputs. -/
theorem setter_range_validation_witness :
    (∃ b', ThumbnailerBuilder.new.set_seek_percentage (1/2) = Except.ok b') ∧
    ThumbnailerBuilder.new.set_quality 101 =
      Except.error (ThumbnailerError.InvalidQuality 101) :=
  ⟨(setter_range_validation ThumbnailerBuilder.new (1/2) 101).1.mpr
      (by norm_num),
   (setter_range_validation ThumbnailerBuilder.new (1/2) 101).2.2.2
      (by norm_num)⟩

/-- C7: PNG encoding uses 8-bit depth and RGB color type, and the configured
quality has no effect on the PNG path: for any frame and any two quality
values, `process_to_png_bytes` produces identical output (including identical
error behaviour), and every successful encode carries exactly the
RGB/8-bit-encoded buffer. -/
theorem png_ignores_quality (b : ThumbnailerBuilder) (q₁ q₂ : ℚ)
    (f : VideoFrame) :
    (ThumbnailerBuilder.build { b with quality := q₁ }).process_to_png_bytes f =
      (ThumbnailerBuilder.build { b with quality := q₂ }).process_to_png_bytes
        f ∧
    ∀ out, (ThumbnailerBuilder.build b).process_to_png_bytes f =
        Except.ok out →
      out.bytes = EncodedBytes.png PngColorType.Rgb PngBitDepth.Eight f.width
        f.height f.data := by
  refine ⟨rfl, ?_⟩
  intro out hout
  unfold Thumbnailer.process_to_png_bytes at hout
  split at hout
  · simp at hout
  · simp only [Except.ok.injEq] at hout
    subst hout
    rfl

/-- Witness for C7: the sample 1×1 frame encodes to the RGB/8-bit PNG
record. -/
theorem png_ignores_quality_witness :
    samplePngOut.bytes =
      EncodedBytes.png PngColorType.Rgb PngBitDepth.Eight 1 1 [0, 0, 0] :=
  (png_ignores_quality sampleThumbnailer.builder 1 2 ⟨1, 1, 1, 1, [0, 0, 0]⟩).2
    samplePngOut rfl

/-- C9: two invocations of `process_to_bytes` with the same input, the same
configuration and the same output format yield byte-identical output bytes and
identical dimension metadata. -/
theorem process_to_bytes_deterministic (t : Thumbnailer) (src : MediaSource)
    (fmt : OutputFormat) (out₁ out₂ : OutputContainer) (tr₁ tr₂ : List Ev)
    (h₁ : t.process_to_bytes src fmt = (Except.ok out₁, tr₁))
    (h₂ : t.process_to_bytes src fmt = (Except.ok out₂, tr₂)) :
    out₁.bytes = out₂.bytes ∧ out₁.width = out₂.width ∧
    out₁.height = out₂.height ∧ out₁.source_width = out₂.source_width ∧
    out₁.source_height = out₂.source_height := by
  rw [h₁] at h₂
  obtain ⟨h, -⟩ := Prod.mk.injEq .. ▸ h₂
  cases h
  exact ⟨rfl, rfl, rfl, rfl, rfl⟩

/-- Witness for C9: the sample PNG run on the embedded-metadata input. -/
theorem process_to_bytes_deterministic_witness :
    samplePngOut.bytes = samplePngOut.bytes ∧
    samplePngOut.width = samplePngOut.width ∧
    samplePngOut.height = samplePngOut.height ∧
    samplePngOut.source_width = samplePngOut.source_width ∧
    samplePngOut.source_height = samplePngOut.source_height :=
  process_to_bytes_deterministic sampleThumbnailer embeddedSource
    OutputFormat.Png samplePngOut samplePngOut samplePngTrace samplePngTrace
    rfl rfl

/-- C3: `process` infers the encoder from the output path's extension
case-insensitively (`webp` selects WebP, `png` selects PNG); any other
extension fails with `UnsupportedExtension` carrying that extension, a missing
extension fails with the `"<empty>"` sentinel, and in both failure cases the
error is returned with an empty call trace and no write — before any decode
work begins. -/
theorem extension_inference (t : Thumbnailer) (src : MediaSource) (wOk : Bool)
    (ext p : String) :
    (eqIgnoreAsciiCase ext "webp" = true →
      inferredFormat (some ext) = Except.ok OutputFormat.Webp) ∧
    (eqIgnoreAsciiCase ext "webp" = false →
      eqIgnoreAsciiCase ext "png" = true →
      inferredFormat (some ext) = Except.ok OutputFormat.Png) ∧
    (eqIgnoreAsciiCase ext "webp" = false →
      eqIgnoreAsciiCase ext "png" = false →
      inferredFormat (some ext) =
        Except.error (ThumbnailerError.UnsupportedExtension ext)) ∧
    inferredFormat none =
      Except.error (ThumbnailerError.UnsupportedExtension "<empty>") ∧
    (∀ e, inferredFormat (pathExtension p) = Except.error e →
      t.process src wOk p = (Except.error e, [], none)) := by
  refine ⟨?_, ?_, ?_, rfl, ?_⟩
  · intro h; simp [inferredFormat, h]
  · intro h1 h2; simp [inferredFormat, h1, h2]
  · intro h1 h2; simp [inferredFormat, h1, h2]
  · intro e he
    unfold Thumbnailer.process
    rw [he]

/-- Witness for C3: `"WEBP"` is recognized case-insensitively and `"x.gif"`
is rejected before any decoder call. -/
theorem extension_inference_witness :
    inferredFormat (some "WEBP") = Except.ok OutputFormat.Webp ∧
    sampleThumbnailer.process embeddedSource true "x.gif" =
      (Except.error (ThumbnailerError.UnsupportedExtension "gif"), [], none) :=
  ⟨(extension_inference sampleThumbnailer embeddedSource true "WEBP" "x.gif").1
      rfl,
   (extension_inference sampleThumbnailer embeddedSource true "WEBP"
      "x.gif").2.2.2.2 (ThumbnailerError.UnsupportedExtension "gif") rfl⟩

/-- C8: the output file is written only after the whole
decode→seek→scale→filter→encode sequence fully succeeded: a pipeline error
(including an encoder error, which `process_to_bytes` propagates from the
encode step) is returned with no write attempted, and a write, when it
happens, carries exactly the successfully encoded bytes. -/
theorem no_partial_write (t : Thumbnailer) (src : MediaSource) (wOk : Bool)
    (p : String) :
    (∀ fmt e, inferredFormat (pathExtension p) = Except.ok fmt →
      (t.process_to_bytes src fmt).1 = Except.error e →
      t.process src wOk p =
        (Except.error e, (t.process_to_bytes src fmt).2, none)) ∧
    (∀ bs, (t.process src wOk p).2.2 = some bs →
      ∃ fmt out, inferredFormat (pathExtension p) = Except.ok fmt ∧
        (t.process_to_bytes src fmt).1 = Except.ok out ∧ bs = out.bytes) ∧
    (∀ frame tr0, t.process_to_video_frame src = (Except.ok frame, tr0) →
      t.process_to_png_bytes frame =
        Except.error ThumbnailerError.EncodeFailed →
      t.process_to_bytes src OutputFormat.Png =
        (Except.error ThumbnailerError.EncodeFailed,
          tr0 ++ [Ev.encodeCall])) := by
  refine ⟨?_, ?_, ?_⟩
  · intro fmt e hfmt herr
    unfold Thumbnailer.process
    rw [hfmt]
    simp only
    rcases hpb : t.process_to_bytes src fmt with ⟨r, tr⟩
    have hr : r = Except.error e := by rw [hpb] at herr; exact herr
    subst hr
    simp
  · intro bs hbs
    unfold Thumbnailer.process at hbs
    rcases hfmt : inferredFormat (pathExtension p) with e | fmt
    · rw [hfmt] at hbs; simp at hbs
    · rw [hfmt] at hbs
      simp only at hbs
      rcases hpb : t.process_to_bytes src fmt with ⟨r, tr⟩
      rw [hpb] at hbs
      rcases r with e | out
      · simp at hbs
      · refine ⟨fmt, out, ?_, ?_, ?_⟩
        · first
          | exact hfmt
          | rfl
        · rw [hpb]
        · by_cases hw : wOk = true <;> simp [hw] at hbs <;> exact hbs.symm
  · intro frame tr0 hv hpng
    unfold Thumbnailer.process_to_bytes
    rw [hv]
    simp [hpng]

/-- Witness for C8: a container that fails to open is reported as
`OpenFailed` with nothing written, and a run whose PNG encode step fails (a
zero-dimension frame the encoder rejects) is reported as `EncodeFailed` with
nothing written. -/
theorem no_partial_write_witness :
    sampleThumbnailer.process failingSource true "x.png" =
      (Except.error ThumbnailerError.OpenFailed,
        (sampleThumbnailer.process_to_bytes failingSource OutputFormat.Png).2,
        none) ∧
    zeroDimThumbnailer.process embeddedSource true "x.png" =
      (Except.error ThumbnailerError.EncodeFailed,
        (zeroDimThumbnailer.process_to_bytes embeddedSource
          OutputFormat.Png).2,
        none) ∧
    zeroDimThumbnailer.process_to_bytes embeddedSource OutputFormat.Png =
      (Except.error ThumbnailerError.EncodeFailed,
        [Ev.openCall, Ev.decodeCall, Ev.scaleCall, Ev.filterCall,
          Ev.encodeCall]) :=
  ⟨(no_partial_write sampleThumbnailer failingSource true "x.png").1
      OutputFormat.Png ThumbnailerError.OpenFailed rfl rfl,
   (no_partial_write zeroDimThumbnailer embeddedSource true "x.png").1
      OutputFormat.Png ThumbnailerError.EncodeFailed rfl rfl,
   (no_partial_write zeroDimThumbnailer embeddedSource true "x.png").2.2
      ⟨0, 0, 1, 1, []⟩
      [Ev.openCall, Ev.decodeCall, Ev.scaleCall, Ev.filterCall] rfl rfl⟩

/-- Helper: a successful open yields a decoder session at cursor 0. -/
theorem MovieDecoder.new_ok (src : MediaSource) (prefer : Bool)
    (h : src.openOk = true) :
    MovieDecoder.new src prefer = Except.ok ⟨src, prefer, 0⟩ := by
  simp [MovieDecoder.new, h]

/-- Helper: the seek target is non-negative for a non-negative percentage. -/
theorem seekTarget_nonneg (d : Nat) {pct : ℚ} (h0 : 0 ≤ pct) :
    0 ≤ seekTarget d pct := by
  rw [seekTarget, round_eq]
  refine Int.floor_nonneg.mpr ?_
  have hd : (0 : ℚ) ≤ (d : ℚ) * pct := mul_nonneg (Nat.cast_nonneg d) h0
  linarith

/-- Helper: the seek target never exceeds the whole-second duration for a
percentage at most 1. -/
theorem seekTarget_le_duration (d : Nat) {pct : ℚ} (h1 : pct ≤ 1) :
    seekTarget d pct ≤ (d : Int) := by
  rw [seekTarget, round_eq]
  have hx : (d : ℚ) * pct ≤ (d : ℚ) :=
    calc (d : ℚ) * pct ≤ (d : ℚ) * 1 :=
          mul_le_mul_of_nonneg_left h1 (Nat.cast_nonneg d)
      _ = (d : ℚ) := mul_one _
  have hfl : (⌊(d : ℚ) * pct + 1 / 2⌋ : ℤ) ≤ ⌊(d : ℚ) + 1 / 2⌋ :=
    Int.floor_mono (by linarith)
  have hdd : (⌊(d : ℚ) + 1 / 2⌋ : ℤ) = (d : ℤ) + ⌊(1 : ℚ) / 2⌋ :=
    Int.floor_nat_add d (1 / 2)
  have hhalf : (⌊(1 : ℚ) / 2⌋ : ℤ) = 0 := by norm_num
  omega

/-- Helper: a successful `scaleAndFilter` run appends exactly one scale call
and, when configured, one filter call, and returns the scaled frame with the
filter applied exactly when configured. -/
theorem scaleAndFilter_success (t : Thumbnailer) (dec : MovieDecoder)
    (tr tr' : List Ev) (frame : VideoFrame)
    (h : scaleAndFilter t dec tr = (Except.ok frame, tr')) :
    ∃ sf, dec.get_scaled_video_frame (some t.builder.size)
        t.builder.maintain_aspect_ratio = Except.ok sf ∧
      tr' = tr ++ [Ev.scaleCall] ++
        (if t.builder.with_film_strip then [Ev.filterCall] else []) ∧
      frame = (if t.builder.with_film_strip then film_strip_filter sf
        else sf) := by
  unfold scaleAndFilter at h
  split at h
  · simp at h
  · rename_i sf hscale
    refine ⟨sf, hscale, ?_⟩
    split at h <;> rename_i hs <;>
      simp only [Prod.mk.injEq, Except.ok.injEq] at h <;>
      rcases h with ⟨hf, ht⟩ <;> subst hf <;> subst ht <;>
      simp [hs]

/-- Helper: the trace of a `scaleAndFilter` run never contains a seek call
beyond those already in the input trace. -/
theorem scaleAndFilter_no_new_seek (t : Thumbnailer) (dec : MovieDecoder)
    (tr : List Ev) :
    (scaleAndFilter t dec tr).2.any Ev.isSeek = tr.any Ev.isSeek := by
  unfold scaleAndFilter
  split
  · simp [Ev.isSeek]
  · split <;> simp [Ev.isSeek]

/-- C1: the seek step of `process_to_video_frame` is skipped iff the container
has embedded metadata AND `prefer_embedded_metadata` is true (the trace
contains a seek call exactly otherwise); when both hold, no seek call occurs
and the frame returned for encoding is the scaling of the embedded image
(with the film strip applied iff configured). -/
theorem embedded_metadata_skips_seek (t : Thumbnailer) (src : MediaSource)
    (hopen : src.openOk = true) (hprime : src.primeOk = true) :
    ((t.process_to_video_frame src).2.any Ev.isSeek =
      !(t.builder.prefer_embedded_metadata && src.hasEmbedded)) ∧
    (t.builder.prefer_embedded_metadata = true → src.hasEmbedded = true →
      src.scaleOk = true →
      (t.process_to_video_frame src).1 =
        Except.ok
          (if t.builder.with_film_strip then
            film_strip_filter (scaleImage (some t.builder.size)
              t.builder.maintain_aspect_ratio src.embeddedImage)
          else
            scaleImage (some t.builder.size) t.builder.maintain_aspect_ratio
              src.embeddedImage)) := by
  unfold Thumbnailer.process_to_video_frame
  rw [MovieDecoder.new_ok src t.builder.prefer_embedded_metadata hopen]
  simp only [MovieDecoder.decode_video_frame, MovieDecoder.get_video_duration_secs,
    MovieDecoder.embedded_metadata_is_available, hprime, if_true]
  constructor
  · by_cases hpe : (t.builder.prefer_embedded_metadata && src.hasEmbedded) = true
    · simp only [hpe, Bool.not_true, Bool.false_eq_true, if_false]
      rw [scaleAndFilter_no_new_seek]
      simp [Ev.isSeek]
    · have hpe' : (t.builder.prefer_embedded_metadata && src.hasEmbedded) = false :=
        Bool.not_eq_true _ ▸ (by simpa using hpe)
      simp only [hpe', Bool.not_false, if_true]
      split
      · simp [Ev.isSeek]
      · rw [scaleAndFilter_no_new_seek]
        simp [Ev.isSeek]
  · intro hp he hscale
    simp only [hp, he, Bool.and_self, Bool.not_true, Bool.false_eq_true, if_false]
    unfold scaleAndFilter
    rw [show (MovieDecoder.mk src true 0).get_scaled_video_frame
        (some t.builder.size) t.builder.maintain_aspect_ratio =
        Except.ok (scaleImage (some t.builder.size)
          t.builder.maintain_aspect_ratio src.embeddedImage) by
      simp [MovieDecoder.get_scaled_video_frame,
        MovieDecoder.embedded_metadata_is_available, hscale, he]]
    by_cases hs : t.builder.with_film_strip = true <;> simp [hs]

/-- Witness for C1: with embedded cover art and the default preference, the
sample run performs no seek call. -/
theorem embedded_metadata_skips_seek_witness :
    (sampleThumbnailer.process_to_video_frame embeddedSource).2.any Ev.isSeek =
      !(sampleThumbnailer.builder.prefer_embedded_metadata &&
        embeddedSource.hasEmbedded) :=
  (embedded_metadata_skips_seek sampleThumbnailer embeddedSource rfl rfl).1

/-- C2: whenever seeking is taken, the issued target is
`round(durationSecs * seek_percentage)`; `seek_percentage = 0` yields target
0, `seek_percentage = 1` yields the last whole second of the duration, any
percentage in `[0, 1]` yields a target within the stream bounds, and on a
seekable container the seek succeeds (is not an error). -/
theorem seek_target_formula (t : Thumbnailer) (src : MediaSource) (d : Nat)
    (pct : ℚ) (hopen : src.openOk = true) (hprime : src.primeOk = true)
    (hemb : (t.builder.prefer_embedded_metadata && src.hasEmbedded) = false) :
    Ev.seekCall (seekTarget src.durationSecs t.builder.seek_percentage) ∈
      (t.process_to_video_frame src).2 ∧
    seekTarget d 0 = 0 ∧
    seekTarget d 1 = (d : Int) ∧
    (0 ≤ pct → pct ≤ 1 →
      0 ≤ seekTarget d pct ∧ seekTarget d pct ≤ (d : Int)) ∧
    (0 ≤ pct → pct ≤ 1 → src.seekable = true → ∀ prefer cursor,
      ∃ dec', MovieDecoder.seek ⟨src, prefer, cursor⟩
        (seekTarget src.durationSecs pct) = Except.ok dec') := by
  refine ⟨?_, ?_, ?_, fun h0 h1 => ⟨seekTarget_nonneg d h0,
    seekTarget_le_duration d h1⟩, ?_⟩
  · unfold Thumbnailer.process_to_video_frame
    rw [MovieDecoder.new_ok src t.builder.prefer_embedded_metadata hopen]
    simp only [MovieDecoder.decode_video_frame,
      MovieDecoder.get_video_duration_secs,
      MovieDecoder.embedded_metadata_is_available, hprime, if_true]
    simp only [hemb, Bool.not_false, if_true]
    split
    · simp
    · unfold scaleAndFilter
      split
      · simp
      · split <;> simp
  · simp [seekTarget]
  · simp [seekTarget]
  · intro h0 h1 hs prefer cursor
    refine ⟨⟨src, prefer, (seekTarget src.durationSecs pct).toNat⟩, ?_⟩
    rw [MovieDecoder.seek]
    rw [if_pos ⟨hs, seekTarget_nonneg src.durationSecs h0,
      seekTarget_le_duration src.durationSecs h1⟩]

/-- Witness for C2 at the concrete seek-taking run (no embedded metadata,
duration 10 s, percentage 1). -/
theorem seek_target_formula_witness :
    (Ev.seekCall (seekTarget plainSource.durationSecs
        sampleThumbnailer.builder.seek_percentage) ∈
      (sampleThumbnailer.process_to_video_frame plainSource).2) ∧
    seekTarget 10 0 = 0 ∧
    seekTarget 10 1 = (10 : Int) ∧
    ((0 : ℚ) ≤ 1 → (1 : ℚ) ≤ 1 →
      0 ≤ seekTarget 10 1 ∧ seekTarget 10 1 ≤ (10 : Int)) ∧
    ((0 : ℚ) ≤ 1 → (1 : ℚ) ≤ 1 → plainSource.seekable = true →
      ∀ prefer cursor,
        ∃ dec', MovieDecoder.seek ⟨plainSource, prefer, cursor⟩
          (seekTarget plainSource.durationSecs 1) = Except.ok dec') :=
  seek_target_formula sampleThumbnailer plainSource 10 1 rfl rfl rfl

/-- Helper: shape of a successful `process_to_video_frame` run — an open and
a priming decode, an optional seek, then exactly one scale call followed by a
filter call iff the film strip is configured; the returned frame is the scaled
frame with the filter applied iff configured. -/
theorem ptvf_success_shape (t : Thumbnailer) (src : MediaSource)
    (frame : VideoFrame) (tr0 : List Ev)
    (h : t.process_to_video_frame src = (Except.ok frame, tr0)) :
    ∃ pre sf,
      (pre = [Ev.openCall, Ev.decodeCall] ∨
        ∃ n, pre = [Ev.openCall, Ev.decodeCall, Ev.seekCall n]) ∧
      tr0 = pre ++ [Ev.scaleCall] ++
        (if t.builder.with_film_strip then [Ev.filterCall] else []) ∧
      (∃ dec : MovieDecoder, dec.get_scaled_video_frame (some t.builder.size)
        t.builder.maintain_aspect_ratio = Except.ok sf) ∧
      frame = (if t.builder.with_film_strip then film_strip_filter sf
        else sf) := by
  unfold Thumbnailer.process_to_video_frame at h
  split at h
  · simp at h
  · rename_i dec hnew
    split at h
    · simp at h
    · split at h
      · split at h
        · simp at h
        · rename_i dec2 hseek
          obtain ⟨sf, hscale, htr, hframe⟩ :=
            scaleAndFilter_success t dec2 _ _ _ h
          exact ⟨_, sf, Or.inr ⟨_, rfl⟩, htr, ⟨dec2, hscale⟩, hframe⟩
      · obtain ⟨sf, hscale, htr, hframe⟩ :=
          scaleAndFilter_success t dec _ _ _ h
        exact ⟨_, sf, Or.inl rfl, htr, ⟨dec, hscale⟩, hframe⟩

/-- C6: in every successful `process_to_bytes` run the film-strip filter call
occurs exactly once when `with_film_strip` is true and never when it is false;
it occurs strictly after the scale call and strictly before the encode call,
and the frame handed to the encoder is the unfiltered scaled frame when
`with_film_strip` is false (the filtered one when true). -/
theorem film_strip_once_after_scale_before_encode (t : Thumbnailer)
    (src : MediaSource) (fmt : OutputFormat) (out : OutputContainer)
    (tr : List Ev) (h : t.process_to_bytes src fmt = (Except.ok out, tr)) :
    tr.count Ev.filterCall = (if t.builder.with_film_strip then 1 else 0) ∧
    ∃ pre sf,
      (pre = [Ev.openCall, Ev.decodeCall] ∨
        ∃ n, pre = [Ev.openCall, Ev.decodeCall, Ev.seekCall n]) ∧
      tr = pre ++ [Ev.scaleCall] ++
        (if t.builder.with_film_strip then [Ev.filterCall] else []) ++
        [Ev.encodeCall] ∧
      (∃ dec : MovieDecoder, dec.get_scaled_video_frame (some t.builder.size)
        t.builder.maintain_aspect_ratio = Except.ok sf) ∧
      (t.process_to_video_frame src).1 =
        Except.ok (if t.builder.with_film_strip then film_strip_filter sf
          else sf) := by
  unfold Thumbnailer.process_to_bytes at h
  rcases hv : t.process_to_video_frame src with ⟨r, tr0⟩
  rw [hv] at h
  rcases r with e | frame
  · simp at h
  · obtain ⟨pre, sf, hpre, htr0, hdec, hframe⟩ :=
      ptvf_success_shape t src frame tr0 hv
    have htr : tr = tr0 ++ [Ev.encodeCall] := by
      rcases fmt
      · simp only [Thumbnailer.process_to_webp_bytes, Prod.mk.injEq] at h
        exact h.2.symm
      · rcases hpng : t.process_to_png_bytes frame with e' | out'
        · simp only [hpng, Prod.mk.injEq] at h
          exact absurd h.1 (by simp)
        · simp only [hpng, Prod.mk.injEq] at h
          exact h.2.symm
    subst htr
    subst htr0
    refine ⟨?_, pre, sf, hpre, by simp, hdec, by simp [hframe]⟩
    rcases hpre with hpre | ⟨n, hpre⟩ <;> subst hpre <;>
      by_cases hs : t.builder.with_film_strip = true <;>
      simp [hs, List.count_append, List.count_cons]

/-- Witness for C6: the sample PNG run on the embedded-metadata input. -/
theorem film_strip_once_witness :
    samplePngTrace.count Ev.filterCall =
      (if sampleThumbnailer.builder.with_film_strip then 1 else 0) ∧
    ∃ pre sf,
      (pre = [Ev.openCall, Ev.decodeCall] ∨
        ∃ n, pre = [Ev.openCall, Ev.decodeCall, Ev.seekCall n]) ∧
      samplePngTrace = pre ++ [Ev.scaleCall] ++
        (if sampleThumbnailer.builder.with_film_strip then [Ev.filterCall]
          else []) ++ [Ev.encodeCall] ∧
      (∃ dec : MovieDecoder, dec.get_scaled_video_frame
        (some sampleThumbnailer.builder.size)
        sampleThumbnailer.builder.maintain_aspect_ratio = Except.ok sf) ∧
      (sampleThumbnailer.process_to_video_frame embeddedSource).1 =
        Except.ok (if sampleThumbnailer.builder.with_film_strip then
          film_strip_filter sf else sf) :=
  film_strip_once_after_scale_before_encode sampleThumbnailer embeddedSource
    OutputFormat.Png samplePngOut samplePngTrace rfl

end FfmpegThumbnailer
